import Mathlib

/-!
Shallow embedding of the Solidity→EraVM MLIR lowering:
the EraVM target constants, the `ObjectOpLowering` / `ReturnOpLowering`
rewrite patterns and the `inRuntimeContext` classifier
(libsolidity/codegen/mlir/Target/EraVM/Util.h and the EraVM lowering pass),
and the AST→MLIR pass `SolidityToMLIRPass` (`genCast`, `genExpr`,
`visit(Return)`, `run(FunctionDefinition)`).

MLIR SSA values are embedded as terms of the inductive `Val` (a pure
value-producing operation is identified with the value it defines);
effectful builder emissions (stores, calls, declarations, terminators)
are embedded as terms of `Op`, and a lowering that emits a sequence of
operations is a Lean function returning a `List Op` in emission order.
-/

-- ===== EraVM target constants (enum AddrSpace / ByteLen / BitLen etc.) =====

def AddrSpace_Stack : Nat := 0
def AddrSpace_Heap : Nat := 1
def AddrSpace_HeapAuxiliary : Nat := 2
def AddrSpace_Generic : Nat := 3
def AddrSpace_Code : Nat := 4
def AddrSpace_Storage : Nat := 5

def ByteLen_Byte : Nat := 1
def ByteLen_X32 : Nat := 4
def ByteLen_X64 : Nat := 8
def ByteLen_EthAddr : Nat := 20
def ByteLen_Field : Nat := 32

def BitLen_Bool : Nat := 1
def BitLen_Byte : Nat := 8
def BitLen_X32 : Nat := BitLen_Byte * ByteLen_X32
def BitLen_X64 : Nat := BitLen_Byte * ByteLen_X64
def BitLen_EthAddr : Nat := BitLen_Byte * ByteLen_EthAddr
def BitLen_Field : Nat := BitLen_Byte * ByteLen_Field

def HeapAuxOffsetCtorRetData : Nat := ByteLen_Field * 8

def ExtraABIDataSize : Nat := 10

/-- enum RetForwardPageType: UseHeap = 0. -/
def UseHeap : Nat := 0

/-- enum RetForwardPageType: ForwardFatPtr = 1. -/
def ForwardFatPtr : Nat := 1

/-- enum RetForwardPageType: UseAuxHeap = 2. -/
def UseAuxHeap : Nat := 2

/-- climits UINT_MAX, the mask constant used by getABILen. -/
def UINT_MAX : Nat := 4294967295

def GlobHeapMemPtr : String := "memory_pointer"
def GlobCallDataSize : String := "calldatasize"
def GlobRetDataSz : String := "returndatasize"
def GlobCallFlags : String := "call_flags"
def GlobExtraABIData : String := "extra_abi_data"
def GlobCallDataPtr : String := "ptr_calldata"
def GlobRetDataPtr : String := "ptr_return_data"
def GlobActivePtr : String := "ptr_active"

/-- enum EntryInfo: index of the call-data ABI argument of __entry. -/
def ArgIndexCallDataABI : Nat := 0

/-- enum EntryInfo: index of the call-flags argument of __entry. -/
def ArgIndexCallFlags : Nat := 1

/-- enum EntryInfo: number of mandatory arguments of __entry. -/
def MandatoryArgCnt : Nat := 2

/-- The suffix test used on symbol names (StringRef::endswith /
StringAttr::endswith in the source), embedded over character lists so
that it evaluates. -/
def strEndsWith (s post : String) : Bool :=
  post.data.isSuffixOf s.data

-- ===== Embedded IR values and operations =====

/-- An MLIR type as needed by the lowering: iN integer types and
LLVM pointer types carrying an address space. -/
inductive MTy where
  | i (bits : Nat)
  | ptr (addrSpace : Nat)
deriving DecidableEq, Repr

/-- An embedded SSA value.  Pure value-producing MLIR operations
(arith constants, ptrtoint, lshr, and, mul, add, addressof, load, GEP,
inttoptr, cmp, sign/zero extension, memref load) are identified with the
value they define. -/
inductive Val where
  /-- the i-th block argument of the entry block -/
  | arg (i : Nat)
  /-- an arith constant (BuilderHelper::getConst) -/
  | cst (n : Nat)
  /-- an arith constant with an explicit bit width (literal lowering) -/
  | constInt (bits : Nat) (v : Nat)
  /-- llvm.mlir.addressof of a global -/
  | addrOf (glob : String)
  | ptrToInt (v : Val)
  | lshr (a b : Val)
  | land (a b : Val)
  | mul (a b : Val)
  | add (a b : Val)
  /-- llvm.load from an address -/
  | load (a : Val)
  /-- memref.load of the stack slot bound to a source variable -/
  | loadVar (x : String)
  /-- llvm.getelementptr with byte element type and one dynamic index -/
  | gep1 (base idx : Val)
  /-- llvm.getelementptr into a global array with two constant indices -/
  | gep2 (base : Val) (i j : Nat)
  | intToPtr (addrSpace : Nat) (v : Val)
  | cmpEq (a b : Val)
  | sext (bits : Nat) (v : Val)
  | zext (bits : Nat) (v : Val)
  /-- the all-zero splat constant initializing the extra-ABI-data array -/
  | splatZero
deriving DecidableEq, Repr

/-- An embedded effectful operation emitted by the lowering, in emission
order. -/
inductive Op where
  /-- getOrInsert*GlobalOp inserting a fresh global declaration -/
  | declGlobal (name : String) (addrSpace : Nat)
  /-- getOrInsertLLVMFuncOp inserting a fresh function declaration;
  the creation/runtime variants attach an isRuntime boolean attribute -/
  | declFunc (name : String) (isRuntime : Option Bool)
  /-- llvm.store of a value to an address -/
  | store (v a : Val)
  /-- func.call with three i256 arguments (the __return intrinsic) -/
  | call3 (callee : String) (a b c : Val)
  /-- llvm.call with no arguments (__deploy / __runtime invocations) -/
  | callNoArg (callee : String)
  /-- scf.if on a condition whose then/else bodies each hold a single
  no-argument call -/
  | scfIfCall (cond : Val) (thenCallee elseCallee : String)
  /-- inlineRegionBefore relocating a region into the named function -/
  | moveRegion (dst : String)
  | unreachable
deriving DecidableEq, Repr

/-- Partial arithmetic evaluation of a closed embedded value, with
i256 two's-complement wraparound; values depending on block arguments,
memory or pointers do not evaluate. -/
def evalVal : Val → Option Nat
  | .cst n => some (n % 2 ^ 256)
  | .constInt _ v => some (v % 2 ^ 256)
  | .add a b =>
    match evalVal a, evalVal b with
    | some x, some y => some ((x + y) % 2 ^ 256)
    | _, _ => none
  | .mul a b =>
    match evalVal a, evalVal b with
    | some x, some y => some ((x * y) % 2 ^ 256)
    | _, _ => none
  | _ => none

-- ===== BuilderHelper::getABILen =====

/-- eravm BuilderHelper::getABILen: the value built for the ABI length of
the pointer `ptr`: ptrtoint to i256, logical shift right by
BitLen_X32 * 3 bits, bitwise and with UINT_MAX. -/
def getABILenVal (ptr : Val) : Val :=
  .land (.lshr (.ptrToInt ptr) (.cst (BitLen_X32 * 3))) (.cst UINT_MAX)

/-- Arithmetic semantics of the operation sequence emitted by
BuilderHelper::getABILen (ptrtoint, lshr by BitLen_X32 * 3, and with
UINT_MAX) on a pointer whose i256 integer value is `ptrVal`. -/
def getABILenOnInt (ptrVal : Nat) : Nat :=
  (ptrVal >>> (BitLen_X32 * 3)) &&& UINT_MAX

/-- Modelled from the spec: the fat-pointer encoding rule (the spec's
length-encoding direction, which has no function of its own in the
source: the source only decodes).  A length L is placed into the
pointer's tag bits at bit-offset 3 × 32 = 96. -/
def encodeLenIntoTagSpec (L : Nat) : Nat :=
  L <<< (BitLen_X32 * 3)

-- ===== inRuntimeContext: context classification =====

/-- One enclosing scope of an operation, nearest-first in an ancestor
chain: an LLVM function (with its optional isRuntime attribute), a
sol.object container (with its symbol name), or any other enclosing
operation. -/
inductive Scope where
  | func (isRuntimeAttr : Option Bool)
  | object (symName : String)
  | other
deriving DecidableEq, Repr

/-- The isRuntime attribute of a scope when it is an LLVM function. -/
def Scope.funcTag : Scope → Option (Option Bool)
  | .func a => some a
  | _ => none

/-- The symbol name of a scope when it is a sol.object container. -/
def Scope.objName : Scope → Option String
  | .object n => some n
  | _ => none

/-- inRuntimeContext: classifies an operation given its ancestor chain
(nearest scope first).  getParentOfType finds the nearest LLVM function
anywhere in the chain; if one exists its isRuntime attribute decides
(a missing attribute fails an assertion, embedded as `none`).  Otherwise
the nearest sol.object decides by whether its name ends with
"_deployed".  With neither parent the code hits llvm_unreachable,
embedded as `none`. -/
def inRuntimeContext (parents : List Scope) : Option Bool :=
  match parents.findSome? Scope.funcTag with
  | some attr => attr
  | none =>
    match parents.findSome? Scope.objName with
    | some n => some (strEndsWith n "_deployed")
    | none => none

-- ===== ReturnOpLowering =====

/-- The hardcoded immutables size placeholder in
ReturnOpLowering::matchAndRewrite (`auto immutablesSize = 0`). -/
def immutablesSize : Nat := 0

/-- ReturnOpLowering::matchAndRewrite: rewrites a sol.return whose
enclosing ancestor chain is `parents` and whose operands are `lhs`
(offset) and `rhs` (length) into the emitted operation sequence; the
original operation is erased (the result list replaces it).  `none`
embeds the fatal unclassifiable-context path. -/
def ReturnOp_matchAndRewrite (parents : List Scope) (lhs rhs : Val) :
    Option (List Op) :=
  match inRuntimeContext parents with
  | none => none
  | some true =>
    some [.declFunc "__return" none,
          .call3 "__return" lhs rhs (.cst UseHeap),
          .unreachable]
  | some false =>
    some [.declFunc "__return" none,
          .store (.cst ByteLen_Field)
            (.intToPtr AddrSpace_HeapAuxiliary (.cst HeapAuxOffsetCtorRetData)),
          .store (.cst (immutablesSize / ByteLen_Field))
            (.intToPtr AddrSpace_HeapAuxiliary
              (.cst (HeapAuxOffsetCtorRetData + ByteLen_Field))),
          .call3 "__return" (.cst HeapAuxOffsetCtorRetData)
            (.add (.mul (.cst immutablesSize) (.cst 2))
              (.cst (ByteLen_Field * 2)))
            (.cst UseAuxHeap),
          .unreachable]

-- ===== ObjectOpLowering =====

/-- A sol.object operation: its symbol name and the symbol names of the
nested sol.object children of its body. -/
structure ObjectOpData where
  symName : String
  nestedObjects : List String
deriving DecidableEq, Repr

/-- The argument count constant of the entry function synthesis:
`constexpr unsigned argCnt = 2 + 10`. -/
def entryArgCnt : Nat := MandatoryArgCnt + ExtraABIDataSize

/-- The parameter type list of the synthesized __entry function: one
generic-address-space pointer, then `argCnt - 1` i256 parameters. -/
def entryInTys : List MTy :=
  MTy.ptr AddrSpace_Generic :: List.replicate (entryArgCnt - 1) (MTy.i 256)

/-- eravm BuilderHelper::initGlobs: declares and zero-initializes the
scalar globals and the extra-ABI-data array global. -/
def initGlobs : List Op :=
  [.declGlobal GlobHeapMemPtr AddrSpace_Stack,
   .store (.cst 0) (.addrOf GlobHeapMemPtr),
   .declGlobal GlobCallDataSize AddrSpace_Stack,
   .store (.cst 0) (.addrOf GlobCallDataSize),
   .declGlobal GlobRetDataSz AddrSpace_Stack,
   .store (.cst 0) (.addrOf GlobRetDataSz),
   .declGlobal GlobCallFlags AddrSpace_Stack,
   .store (.cst 0) (.addrOf GlobCallFlags),
   .declGlobal GlobExtraABIData AddrSpace_Stack,
   .store .splatZero (.addrOf GlobExtraABIData)]

/-- The value stored into both the return-data-pointer and active-pointer
globals: a byte GEP of the call-data ABI argument by the loaded
calldata size. -/
def retDataABIInitializer : Val :=
  .gep1 (.arg ArgIndexCallDataABI) (.load (.addrOf GlobCallDataSize))

/-- The body of the synthesized __entry function, in emission order,
for the outer object `obj`. -/
def entryBody (obj : ObjectOpData) : List Op :=
  initGlobs ++
  [.declGlobal GlobCallDataPtr AddrSpace_Generic,
   .store (.arg ArgIndexCallDataABI) (.addrOf GlobCallDataPtr),
   .store (getABILenVal (.addrOf GlobCallDataPtr)) (.addrOf GlobCallDataSize),
   .declGlobal GlobRetDataPtr AddrSpace_Generic,
   .store retDataABIInitializer (.addrOf GlobRetDataPtr),
   .declGlobal GlobActivePtr AddrSpace_Generic,
   .store retDataABIInitializer (.addrOf GlobActivePtr),
   .store (.arg ArgIndexCallFlags) (.addrOf GlobCallFlags)] ++
  ((List.range' MandatoryArgCnt (entryArgCnt - MandatoryArgCnt)).map
    fun i => Op.store (.arg i) (.gep2 (.addrOf GlobExtraABIData) 0 i)) ++
  [.declFunc "__runtime" (some true)] ++
  (obj.nestedObjects.map fun _ => Op.moveRegion "__runtime") ++
  [.declFunc "__deploy" (some false),
   .moveRegion "__deploy",
   .scfIfCall
     (.cmpEq (.land (.arg ArgIndexCallFlags) (.cst 1)) (.cst 1))
     "__deploy" "__runtime",
   .unreachable]

/-- The outcome of ObjectOpLowering::matchAndRewrite. -/
inductive LoweredObject where
  /-- the "_deployed" branch: the object's region is relocated into the
  (declared-if-absent) __runtime function and the object erased -/
  | runtimeMoved
  /-- the outer branch: an __entry function with the given parameter
  types and body is synthesized and the object erased -/
  | entry (inTys : List MTy) (body : List Op)
deriving DecidableEq, Repr

/-- ObjectOpLowering::matchAndRewrite on the object `obj`. -/
def ObjectOp_matchAndRewrite (obj : ObjectOpData) : LoweredObject :=
  if strEndsWith obj.symName "_deployed" then
    .runtimeMoved
  else
    .entry entryInTys (entryBody obj)

/-- The parameter type list of the synthesized entry function, when the
rewrite synthesized one. -/
def LoweredObject.entryTys : LoweredObject → Option (List MTy)
  | .runtimeMoved => none
  | .entry tys _ => some tys

/-- The body of the synthesized entry function, when the rewrite
synthesized one. -/
def LoweredObject.entryOps : LoweredObject → Option (List Op)
  | .runtimeMoved => none
  | .entry _ body => some body

-- ===== SolidityToMLIRPass: AST → MLIR lowering =====

/-- The fatal failure kinds of the AST lowering (solUnimplemented /
solUnimplementedAssert raise UnimplementedFeature); an error aborts the
whole lowering and no module is produced. -/
inductive Err where
  | unimplementedFeature
deriving DecidableEq, Repr

/-- A Solidity IntegerType: bit width and signedness. -/
structure IntegerTy where
  numBits : Nat
  isSigned : Bool
deriving DecidableEq, Repr

/-- The Solidity source types handled by the pass: integer types,
rational-number-literal types (fractional, or integral with their
underlying IntegerType representation), and everything else.  Solidity
canonicalizes types, so the source's pointer equality on Type const*
coincides with structural equality here. -/
inductive SolType where
  | integer (t : IntegerTy)
  | rationalFrac
  | rationalInt (t : IntegerTy)
  | other
deriving DecidableEq, Repr

/-- SolidityToMLIRPass::type: maps a source type to its MLIR type;
unhandled types raise UnimplementedFeature. -/
def mlirTypeOf : SolType → Except Err MTy
  | .integer t => .ok (MTy.i t.numBits)
  | .rationalFrac => .error .unimplementedFeature
  | .rationalInt t => .ok (MTy.i t.numBits)
  | .other => .error .unimplementedFeature

/-- The getAsIntTy lambda in genCast: an IntegerType directly, or the
integer representation of an integral rational; null otherwise
(RationalNumberType::integerType() is null for fractional values). -/
def getAsIntTy : SolType → Option IntegerTy
  | .integer t => some t
  | .rationalInt t => some t
  | .rationalFrac => none
  | .other => none

/-- SolidityToMLIRPass::genCast: returns the cast of `val` from `srcTy`
to `dstTy` together with the list of operations it emitted (each emitted
operation identified by its result value).  Identical source and
destination types are a no-op; integer widening emits a single sign- or
zero-extension; every other cast raises UnimplementedFeature. -/
def genCast (val : Val) (srcTy dstTy : SolType) :
    Except Err (Val × List Val) :=
  if srcTy = dstTy then
    .ok (val, [])
  else
    match getAsIntTy srcTy, getAsIntTy dstTy with
    | some srcIntTy, some dstIntTy =>
      if dstIntTy.numBits > srcIntTy.numBits then
        if dstIntTy.isSigned then
          .ok (.sext dstIntTy.numBits val, [.sext dstIntTy.numBits val])
        else
          .ok (.zext dstIntTy.numBits val, [.zext dstIntTy.numBits val])
      else
        .error .unimplementedFeature
    | _, _ => .error .unimplementedFeature

/-- The binary operators distinguished by genExpr(BinaryOperation):
Token::Add, Token::Mul, and every other token. -/
inductive BinOpKind where
  | add
  | mul
  | otherOp
deriving DecidableEq, Repr

/-- An AST expression as consumed by genExpr: a literal, an identifier,
or a binary operation, each carrying its annotation type. -/
inductive Expr where
  | lit (value : Nat) (ty : SolType)
  | ident (name : String) (ty : SolType)
  | binop (k : BinOpKind) (lhs rhs : Expr) (ty : SolType)
deriving DecidableEq, Repr

/-- The annotation type of an expression. -/
def Expr.ty : Expr → SolType
  | .lit _ t => t
  | .ident _ t => t
  | .binop _ _ _ t => t

/-- SolidityToMLIRPass::genExpr(Literal): integral rational literals
produce a typed constant at the representation's bit width; fractional
rationals and non-rational literal types raise UnimplementedFeature. -/
def genExprLit (value : Nat) (ty : SolType) : Except Err Val :=
  match ty with
  | .rationalFrac => .error .unimplementedFeature
  | .rationalInt t => .ok (.constInt t.numBits value)
  | _ => .error .unimplementedFeature

/-- SolidityToMLIRPass::genExpr(Expression, resTy): literals and binary
operations fall through to an optional final genCast to the requested
result type; the identifier branch returns the memref load directly
(an early return that bypasses the final cast). -/
def genExpr (e : Expr) (resTy : Option SolType) : Except Err Val :=
  match e with
  | .ident n _ => .ok (.loadVar n)
  | .lit v ty => do
    let val ← genExprLit v ty
    match resTy with
    | some r => (genCast val ty r).map (·.1)
    | none => .ok val
  | .binop k l r ty => do
    let lhs ← genExpr l (some ty)
    let rhs ← genExpr r (some ty)
    let val ← match k with
      | .add => .ok (Val.add lhs rhs)
      | .mul => .ok (Val.mul lhs rhs)
      | .otherOp => .error Err.unimplementedFeature
    match resTy with
    | some rT => (genCast val ty rT).map (·.1)
    | none => .ok val

/-- SolidityToMLIRPass::visit(Return): nothing to do for a function with
no declared results (the function generator emits the terminator);
exactly one declared result lowers the return expression coerced to it;
more than one declared result, or a missing expression where one is
expected, raises UnimplementedFeature. -/
def visit_Return (currFuncResTys : List SolType) (retExpr : Option Expr) :
    Except Err (Option Val) :=
  match currFuncResTys with
  | [] => .ok none
  | [t] =>
    match retExpr with
    | some e => do
      let v ← genExpr e (some t)
      .ok (some v)
    | none => .error .unimplementedFeature
  | _ => .error .unimplementedFeature

/-- A statement as consumed by the visitor fragment under study: a
return statement with an optional expression. -/
inductive Stmt where
  | ret (e : Option Expr)
deriving DecidableEq, Repr

/-- A Solidity FunctionDefinition: parameter types, declared return
types, and a body. -/
structure FunctionDef where
  name : String
  paramTys : List SolType
  returnTys : List SolType
  body : List Stmt
deriving DecidableEq, Repr

/-- SolidityToMLIRPass::run(FunctionDefinition): maps parameter and
return types (each may raise), asserts at most one declared result
(solUnimplementedAssert), then visits the body; an error aborts the
lowering and no module is produced. -/
def run_FunctionDefinition (f : FunctionDef) : Except Err Unit := do
  let _inpTys ← f.paramTys.mapM mlirTypeOf
  let outTys ← f.returnTys.mapM mlirTypeOf
  if outTys.length ≤ 1 then
    f.body.forM fun s =>
      match s with
      | .ret e => do
        let _ ← visit_Return f.returnTys e
        pure ()
  else
    .error .unimplementedFeature

/-- Decidable equality for lowering results. -/
instance {ε α : Type} [DecidableEq ε] [DecidableEq α] :
    DecidableEq (Except ε α) := fun a b =>
  match a, b with
  | .ok x, .ok y =>
    if h : x = y then isTrue (by rw [h])
    else isFalse (by intro he; cases he; exact h rfl)
  | .error x, .error y =>
    if h : x = y then isTrue (by rw [h])
    else isFalse (by intro he; cases he; exact h rfl)
  | .ok _, .error _ => isFalse (by intro he; cases he)
  | .error _, .ok _ => isFalse (by intro he; cases he)

/-- The concrete two-level object tree of the object-flattening test
(an outer object "Foo" with one nested object "Foo_deployed"). -/
def fooObj : ObjectOpData := ⟨"Foo", ["Foo_deployed"]⟩

-- ===== Claim theorems =====

/-- C1, counterexample: the claim as stated is false on the code.  The
synthesized entry function of the outer object lowering has 12
parameters, not 13: the argument-count constant is 2 + 10 = 12 and the
generic-address-space pointer itself occupies argument index 0 (the
call-data-ABI argument), so only argCnt - 1 = 11 word-typed parameters
follow it. -/
theorem C1_entry_param_counterexample :
    (ObjectOp_matchAndRewrite fooObj).entryTys.map List.length ≠ some 13 ∧
    (ObjectOp_matchAndRewrite fooObj).entryTys.map List.length = some 12 := by
  decide

/-- C1, amended: for every lowering of an outer (non-deployed) object
container, the synthesized entry function has exactly 12 parameters: one
generic-address-space pointer (which is itself the call-data-ABI
argument) followed by 11 word-typed (i256) parameters (the call-flags
argument and the 10 extra-ABI-data arguments), regardless of the source
contract's own function arities. -/
theorem C1_entry_param_list (obj : ObjectOpData)
    (h : strEndsWith obj.symName "_deployed" = false) :
    (ObjectOp_matchAndRewrite obj).entryTys
      = some (MTy.ptr AddrSpace_Generic :: List.replicate 11 (MTy.i 256)) ∧
    entryInTys.length = 12 := by
  constructor
  · simp only [ObjectOp_matchAndRewrite, h]
    rfl
  · decide

/-- Witness for C1_entry_param_list at the outer object "Foo". -/
theorem C1_entry_param_list_witness :
    strEndsWith "Foo" "_deployed" = false ∧
    (ObjectOp_matchAndRewrite ⟨"Foo", []⟩).entryTys
      = some (MTy.ptr AddrSpace_Generic :: List.replicate 11 (MTy.i 256)) :=
  ⟨by decide, (C1_entry_param_list ⟨"Foo", []⟩ (by decide)).1⟩

/-- C2: for every creation-context return with literal offset 0 and
length 0, the lowered sequence contains, in order: a store of the
field-width constant 32 at the fixed auxiliary-heap base offset 256, a
store of 0 (the immutables count; immutablesSize is always 0) at
base + field-width = 288, a call to the return intrinsic with arguments
(fixed base offset 256, the computed length value
immutablesSize * 2 + 2 * field-width, which evaluates to 64, mode
UseAuxHeap = 2), then an unreachable terminator; the original return
operation is discarded (the emitted list replaces it; the leading
element records the idempotent declaration of the return intrinsic). -/
theorem C2_creation_return_sequence (parents : List Scope)
    (h : inRuntimeContext parents = some false) :
    ReturnOp_matchAndRewrite parents (.cst 0) (.cst 0) =
      some [.declFunc "__return" none,
            .store (.cst 32) (.intToPtr 2 (.cst 256)),
            .store (.cst 0) (.intToPtr 2 (.cst 288)),
            .call3 "__return" (.cst 256)
              (.add (.mul (.cst 0) (.cst 2)) (.cst 64)) (.cst 2),
            .unreachable] ∧
    evalVal (.add (.mul (.cst 0) (.cst 2)) (.cst 64)) = some 64 := by
  constructor
  · simp only [ReturnOp_matchAndRewrite, h]
    decide
  · decide

/-- Witness for C2_creation_return_sequence: a return directly inside
the outer object "Foo" is in creation context. -/
theorem C2_creation_return_sequence_witness :
    inRuntimeContext [Scope.object "Foo"] = some false ∧
    ReturnOp_matchAndRewrite [Scope.object "Foo"] (.cst 0) (.cst 0) =
      some [.declFunc "__return" none,
            .store (.cst 32) (.intToPtr 2 (.cst 256)),
            .store (.cst 0) (.intToPtr 2 (.cst 288)),
            .call3 "__return" (.cst 256)
              (.add (.mul (.cst 0) (.cst 2)) (.cst 64)) (.cst 2),
            .unreachable] :=
  ⟨by decide, (C2_creation_return_sequence [Scope.object "Foo"] (by decide)).1⟩

/-- C3: for every length L in [0, 2^32), encoding L into a 256-bit
pointer value's tag bits at bit-offset 3 × 32 = 96 and then applying the
length-derivation rule of getABILen (logical right shift by 96 bits,
then mask to the low 32 bits) recovers exactly L. -/
theorem C3_abi_length_roundtrip (L : Nat) (hL : L < 2 ^ 32) :
    getABILenOnInt (encodeLenIntoTagSpec L) = L := by
  unfold getABILenOnInt encodeLenIntoTagSpec
  have h1 : BitLen_X32 * 3 = 96 := by decide
  rw [h1, Nat.shiftLeft_eq, Nat.shiftRight_eq_div_pow,
      Nat.mul_div_cancel L (by positivity : (0 : Nat) < 2 ^ 96)]
  show L &&& UINT_MAX = L
  have h2 : UINT_MAX = 2 ^ 32 - 1 := rfl
  rw [h2, Nat.and_pow_two_sub_one_eq_mod, Nat.mod_eq_of_lt hL]

/-- Witness for C3_abi_length_roundtrip at L = 77. -/
theorem C3_abi_length_roundtrip_witness :
    77 < 2 ^ 32 ∧ getABILenOnInt (encodeLenIntoTagSpec 77) = 77 :=
  ⟨by norm_num, C3_abi_length_roundtrip 77 (by norm_num)⟩

/-- C4, code bug: in the synthesized entry sequence, the value stored
into the calldata-size global is getABILen applied to the address-of
value of the ptr_calldata global itself, not to the ABI-pointer argument
(entry argument 0) whose length field the spec intends to decode: the
store of the length decoded from the ABI-pointer argument is absent from
the emitted body. -/
theorem C4_calldatasize_decoded_from_global_address :
    Op.store (getABILenVal (Val.addrOf GlobCallDataPtr))
        (Val.addrOf GlobCallDataSize) ∈ entryBody fooObj ∧
    Op.store (getABILenVal (Val.arg ArgIndexCallDataABI))
        (Val.addrOf GlobCallDataSize) ∉ entryBody fooObj := by
  decide

/-- C5: for all integer source types A (width wA) and B (width wB) with
wB > wA, casting a value of type A to B emits exactly one extension
operation: a sign-extend when B is signed and a zero-extend when B is
unsigned; and casting a value of any type A to the identical type A is a
no-op: the same value object is returned and no operation is emitted. -/
theorem C5_widening_and_identity_cast :
    (∀ (s d : IntegerTy) (v : Val), s.numBits < d.numBits →
      genCast v (.integer s) (.integer d) =
        .ok (if d.isSigned then Val.sext d.numBits v else Val.zext d.numBits v,
             [if d.isSigned then Val.sext d.numBits v else Val.zext d.numBits v]))
  ∧ (∀ (t : SolType) (v : Val), genCast v t t = .ok (v, [])) := by
  constructor
  · intro s d v hlt
    have hne : SolType.integer s ≠ SolType.integer d := by
      intro he
      cases he
      exact absurd hlt (lt_irrefl _)
    unfold genCast
    rw [if_neg hne]
    show (if d.numBits > s.numBits then _ else _) = _
    rw [if_pos hlt]
    by_cases hs : d.isSigned
    · simp [hs]
    · simp [hs]
  · intro t v
    simp [genCast]

/-- Witness for C5_widening_and_identity_cast: uint8 → int16 sign
extends, uint8 → uint16 zero extends, uint8 → uint8 is the identity
with no emitted operation. -/
theorem C5_widening_and_identity_cast_witness :
    (8 : Nat) < 16 ∧
    genCast (Val.loadVar "x") (.integer ⟨8, false⟩) (.integer ⟨16, true⟩)
      = .ok (Val.sext 16 (Val.loadVar "x"), [Val.sext 16 (Val.loadVar "x")]) ∧
    genCast (Val.loadVar "x") (.integer ⟨8, false⟩) (.integer ⟨16, false⟩)
      = .ok (Val.zext 16 (Val.loadVar "x"), [Val.zext 16 (Val.loadVar "x")]) ∧
    genCast (Val.loadVar "x") (.integer ⟨8, false⟩) (.integer ⟨8, false⟩)
      = .ok (Val.loadVar "x", []) :=
  ⟨by decide,
   by simpa using
     C5_widening_and_identity_cast.1 ⟨8, false⟩ ⟨16, true⟩ (Val.loadVar "x")
       (by decide),
   by simpa using
     C5_widening_and_identity_cast.1 ⟨8, false⟩ ⟨16, false⟩ (Val.loadVar "x")
       (by decide),
   C5_widening_and_identity_cast.2 (.integer ⟨8, false⟩) (Val.loadVar "x")⟩

/-- C6, code bug: the identifier branch of the expression lowering
returns the memref load directly, bypassing the final cast to the
caller-requested result type that the literal and binary-operation
branches receive: lowering the identifier x of type uint8 with requested
result type uint16 yields the bare load, although the final cast the
claim describes would have produced a zero-extension (as the literal
branch shows on the same requested type). -/
theorem C6_identifier_final_cast_skipped :
    genExpr (.ident "x" (.integer ⟨8, false⟩)) (some (.integer ⟨16, false⟩))
      = .ok (Val.loadVar "x") ∧
    genCast (Val.loadVar "x") (.integer ⟨8, false⟩) (.integer ⟨16, false⟩)
      = .ok (Val.zext 16 (Val.loadVar "x"), [Val.zext 16 (Val.loadVar "x")]) ∧
    Val.loadVar "x" ≠ Val.zext 16 (Val.loadVar "x") ∧
    genExpr (.lit 1 (.rationalInt ⟨8, false⟩)) (some (.integer ⟨16, false⟩))
      = .ok (Val.zext 16 (Val.constInt 8 1)) := by
  decide

/-- C7: the return-context classification walks outward: when the
nearest enclosing function carries an is-runtime tag, that tag decides
the context regardless of everything else in the chain; otherwise, when
no enclosing function exists, the nearest enclosing object container's
name decides (runtime exactly when it ends with "_deployed"); with
neither an enclosing function nor an enclosing object container the
classification is a fatal internal-invariant violation (embedded as
none). -/
theorem C7_return_context_classification :
    (∀ (pre post : List Scope) (b : Bool),
        (∀ s ∈ pre, s.funcTag = none) →
        inRuntimeContext (pre ++ Scope.func (some b) :: post) = some b)
  ∧ (∀ (pre post : List Scope) (n : String),
        (∀ s ∈ pre ++ Scope.object n :: post, s.funcTag = none) →
        (∀ s ∈ pre, s.objName = none) →
        inRuntimeContext (pre ++ Scope.object n :: post)
          = some (strEndsWith n "_deployed"))
  ∧ (∀ ps : List Scope,
        (∀ s ∈ ps, s.funcTag = none) → (∀ s ∈ ps, s.objName = none) →
        inRuntimeContext ps = none) := by
  refine ⟨?_, ?_, ?_⟩
  · intro pre post b hpre
    unfold inRuntimeContext
    rw [List.findSome?_append, List.findSome?_eq_none_iff.mpr hpre]
    rfl
  · intro pre post n hfunc hpre
    unfold inRuntimeContext
    rw [List.findSome?_eq_none_iff.mpr hfunc]
    rw [List.findSome?_append, List.findSome?_eq_none_iff.mpr hpre]
    rfl
  · intro ps hfunc hobj
    unfold inRuntimeContext
    rw [List.findSome?_eq_none_iff.mpr hfunc,
        List.findSome?_eq_none_iff.mpr hobj]

/-- Witness for C7_return_context_classification: a tagged enclosing
function decides, a "_deployed" object decides in the absence of a
function, and an ancestor chain with neither is fatal. -/
theorem C7_return_context_classification_witness :
    inRuntimeContext [Scope.other, Scope.func (some true), Scope.object "X"]
      = some true ∧
    inRuntimeContext [Scope.other, Scope.object "A_deployed", Scope.object "B"]
      = some true ∧
    inRuntimeContext [Scope.other] = none :=
  ⟨C7_return_context_classification.1 [Scope.other] [Scope.object "X"] true
     (by decide),
   by
     have := C7_return_context_classification.2.1 [Scope.other]
       [Scope.object "B"] "A_deployed" (by decide) (by decide)
     simpa using this,
   C7_return_context_classification.2.2 [Scope.other] (by decide) (by decide)⟩

/-- C8, code bug: in the synthesized entry sequence the k-th extra-ABI
argument (entry argument k + 2) is stored at array index k + 2, not k:
the store of entry argument 2 targets slot 2 of the 10-element
extra-ABI-data array (not slot 0), and the store of entry argument 11
targets slot 11, which is out of the array's bounds. -/
theorem C8_extra_abi_data_slot_shift :
    Op.store (Val.arg 2) (Val.gep2 (Val.addrOf GlobExtraABIData) 0 2)
      ∈ entryBody fooObj ∧
    Op.store (Val.arg 2) (Val.gep2 (Val.addrOf GlobExtraABIData) 0 0)
      ∉ entryBody fooObj ∧
    Op.store (Val.arg 11) (Val.gep2 (Val.addrOf GlobExtraABIData) 0 11)
      ∈ entryBody fooObj := by
  decide

/-- C9: lowering a function whose return carries two declared result
types raises UnimplementedFeature (both at the function-definition gate
and in the return visitor), and lowering a cast from a 32-bit integer to
an 8-bit integer (narrowing) raises UnimplementedFeature; the error
aborts the lowering, so no low-level module is produced. -/
theorem C9_fail_fast_unsupported_shapes :
    run_FunctionDefinition
        ⟨"f", [], [.integer ⟨256, false⟩, .integer ⟨256, false⟩],
         [.ret (some (.lit 1 (.rationalInt ⟨256, false⟩)))]⟩
      = .error .unimplementedFeature ∧
    visit_Return [.integer ⟨256, false⟩, .integer ⟨256, false⟩]
        (some (.lit 1 (.rationalInt ⟨256, false⟩)))
      = .error .unimplementedFeature ∧
    genCast (Val.loadVar "x") (.integer ⟨32, false⟩) (.integer ⟨8, false⟩)
      = .error .unimplementedFeature := by
  decide

/-- C10: casting a value between two distinct source types whose integer
representations have the same bit width raises UnimplementedFeature
rather than returning the value unchanged; the no-op path of cast
generation applies only when source and destination are the very same
type. -/
theorem C10_equal_width_distinct_cast_fails
    (srcTy dstTy : SolType) (s d : IntegerTy) (v : Val)
    (hne : srcTy ≠ dstTy)
    (hs : getAsIntTy srcTy = some s) (hd : getAsIntTy dstTy = some d)
    (hw : s.numBits = d.numBits) :
    genCast v srcTy dstTy = .error .unimplementedFeature := by
  unfold genCast
  rw [if_neg hne, hs, hd]
  show (if d.numBits > s.numBits then _ else _) = _
  rw [if_neg (by omega)]

/-- Witness for C10_equal_width_distinct_cast_fails at uint32 → int32. -/
theorem C10_equal_width_distinct_cast_fails_witness :
    (SolType.integer ⟨32, false⟩ ≠ SolType.integer ⟨32, true⟩) ∧
    genCast (Val.loadVar "x") (.integer ⟨32, false⟩) (.integer ⟨32, true⟩)
      = .error .unimplementedFeature :=
  ⟨by decide,
   C10_equal_width_distinct_cast_fails _ _ ⟨32, false⟩ ⟨32, true⟩
     (Val.loadVar "x") (by decide) rfl rfl rfl⟩
